import Mathlib

/-!
# Verification of the stamp-card renderer (`src/card_renderer.py`)

Shallow embedding of the loyalty-card image renderer. Coordinates are
integers; Python's floor division `//` is `Int.fdiv`. Text measurement
(`ImageDraw.textbbox`) depends on the font backend, so the measured bounding
boxes are inputs (`Metrics`); the optional process-global icon
(`_coffee_src`, `None` when the asset failed to load) is an `Option`
input. The renderer is embedded as a pure function producing the computed
layout anchors and the ordered list of drawing operations, plus the output
buffer bookkeeping (`format="PNG"`, `seek(0)`).
-/

/-- Python `a // b` (floor division). -/
def pyFloorDiv (a b : ℤ) : ℤ := Int.fdiv a b

-- ---------------------- Tweakable layout constants (lines 13-32) ----------

def W : ℤ := 1080
def H : ℤ := 1080
def TITLE_Y : ℤ := 56
def LOGO_CENTER_Y : ℤ := 300
def THANK_Y_TARGET : ℤ := 540
def FOOTER_Y : ℤ := H - 74

def CIRCLE_R : ℤ := 72
def ROW_GAP : ℤ := 180
def COL_GAP : ℤ := 180
def LEFT_X : ℤ := pyFloorDiv (W - 4 * COL_GAP) 2

def MIN_GAP_BELOW_THANK : ℤ := 100
def GRID_TOP_FIXED_MIN : ℤ := 740

/-- Local constant of `render_stamp_card` (line 94). -/
def FOOTER_MARGIN_TOP : ℤ := 120

structure Color where
  r : ℕ
  g : ℕ
  b : ℕ
deriving DecidableEq, Repr

def BG : Color := ⟨0, 0, 0⟩
def FG : Color := ⟨255, 255, 255⟩
def RED : Color := ⟨220, 53, 69⟩

/-- Outer/inner ring radii of the logo badge (line 73, `logo_outer_r`). -/
def logo_outer_r : ℤ := 100

def logo_inner_r : ℤ := 80

/-- `icon_size = int(CIRCLE_R * 1.2)` (line 110): `int(86.4)` truncates to 86. -/
def ICON_SIZE : ℤ := 86

-- ---------------------- Measured text extents ----------------------------

/-- A Pillow `textbbox` result `(left, top, right, bottom)`. -/
structure BBox where
  left : ℤ
  top : ℤ
  right : ℤ
  bottom : ℤ
deriving DecidableEq, Repr

/-- The four text measurements `render_stamp_card` performs
(`tbox` line 69, `lbox` line 77, `sbox` line 82, `fbox` line 128). -/
structure Metrics where
  titleBox : BBox
  logoBox : BBox
  thankBox : BBox
  footBox : BBox
deriving DecidableEq, Repr

/-- Process-global inputs read by `render_stamp_card`: the measured text
extents and the optional cached icon `_coffee_src` (lines 47-51; `none`
when `Image.open` failed). -/
structure RenderEnv where
  metrics : Metrics
  icon : Option Unit
deriving DecidableEq, Repr

-- ---------------------- Drawing operations -------------------------------

/-- One drawing operation on the canvas, in the order the code issues it. -/
inductive DrawOp where
  /-- `d.text(pos, s, font=..., fill=color)` -/
  | text (pos : ℤ × ℤ) (s : String) (fill : Color)
  /-- `d.ellipse(bbox, fill=?, outline=?, width=w)` -/
  | ellipse (bb : BBox) (fill : Option Color) (outline : Option Color) (width : ℕ)
  /-- `im.paste(white_icon, pos, white_icon)` icon overlay composite -/
  | paste (pos : ℤ × ℤ) (size : ℤ)
deriving DecidableEq, Repr

/-- Whether an operation is the icon-overlay composite. -/
def DrawOp.isPaste : DrawOp → Bool
  | .paste _ _ => true
  | _ => false

/-- `circle_bbox` (lines 99-100). -/
def circle_bbox (cx cy : ℤ) : BBox :=
  ⟨cx - CIRCLE_R, cy - CIRCLE_R, cx + CIRCLE_R, cy + CIRCLE_R⟩

/-- `draw_empty` (lines 104-105): outlined disc. -/
def draw_empty (x y : ℤ) : List DrawOp :=
  [.ellipse (circle_bbox x y) none (some FG) 6]

/-- `draw_stamp` (lines 107-115): solid red disc, plus the white icon
overlay when `_coffee_src` loaded. -/
def draw_stamp (icon : Option Unit) (x y : ℤ) : List DrawOp :=
  [.ellipse (circle_bbox x y) (some RED) (some RED) 6] ++
    match icon with
    | some _ => [.paste (x - pyFloorDiv ICON_SIZE 2, y - pyFloorDiv ICON_SIZE 2) ICON_SIZE]
    | none => []

/-- The drawing of grid cell `k` (0-9 row-major): the loop body of
lines 117-124 with `row = k / 5`, `col = k % 5`. -/
def cell_draw (icon : Option Unit) (visits : ℤ) (grid_top_center : ℤ) (k : ℕ) : List DrawOp :=
  let y := grid_top_center + (k / 5 : ℕ) * ROW_GAP
  let x := LEFT_X + (k % 5 : ℕ) * COL_GAP
  if (k : ℤ) < visits then draw_stamp icon x y else draw_empty x y

-- ---------------------- Layout and card ----------------------------------

/-- The geometric anchors `render_stamp_card` computes. -/
structure Layout where
  titlePos : ℤ × ℤ
  logoCenter : ℤ × ℤ
  thankY : ℤ
  thankBottom : ℤ
  gridTopCenter : ℤ
  cellCenters : List (ℤ × ℤ)
  footerPos : ℤ × ℤ
deriving DecidableEq, Repr

/-- The rendered canvas: fixed size, background, computed layout, the
per-cell grid drawings, and every drawing operation in issue order. -/
structure Card where
  canvasW : ℤ
  canvasH : ℤ
  bg : Color
  layout : Layout
  gridDraws : List (List DrawOp)
  ops : List DrawOp
deriving DecidableEq, Repr

/-- The returned in-memory buffer: `im.save(out, format="PNG")` then
`out.seek(0)` (lines 131-134). -/
structure Buffer where
  format : String
  image : Card
  pos : ℕ
deriving DecidableEq, Repr

/-- Body of `render_stamp_card` after the clamp on line 56: lines 58-134,
translated line by line. `visits` is already clamped here. -/
def render_clamped (visits : ℤ) (env : RenderEnv) : Buffer :=
  let m := env.metrics
  -- Title (lines 68-70)
  let tbox := m.titleBox
  let titlePos : ℤ × ℤ := (pyFloorDiv (W - (tbox.right - tbox.left)) 2, TITLE_Y)
  -- Logo (lines 72-78)
  let cx := pyFloorDiv W 2
  let cy := LOGO_CENTER_Y
  let lbox := m.logoBox
  let logoTextPos : ℤ × ℤ :=
    (cx - pyFloorDiv (lbox.right - lbox.left) 2, cy - pyFloorDiv (lbox.bottom - lbox.top) 2)
  -- Thank-you (lines 81-86)
  let sbox := m.thankBox
  let thank_w := sbox.right - sbox.left
  let thank_h := sbox.bottom - sbox.top
  let thank_y := max THANK_Y_TARGET (LOGO_CENTER_Y + logo_outer_r + 40)
  let thank_bottom := thank_y + thank_h
  -- Grid vertical placement guards (lines 88-96)
  let min_center_from_text := thank_bottom + MIN_GAP_BELOW_THANK + CIRCLE_R
  let grid_top_center := max GRID_TOP_FIXED_MIN min_center_from_text
  let max_top_center_allowed := FOOTER_Y - FOOTER_MARGIN_TOP - CIRCLE_R - ROW_GAP
  let grid_top_center := min grid_top_center max_top_center_allowed
  -- Grid (lines 117-124)
  let gridDraws := (List.range 10).map (cell_draw env.icon visits grid_top_center)
  let cellCenters : List (ℤ × ℤ) :=
    (List.range 10).map fun k =>
      (LEFT_X + (k % 5 : ℕ) * COL_GAP, grid_top_center + (k / 5 : ℕ) * ROW_GAP)
  -- Footer (lines 126-129)
  let fbox := m.footBox
  let footerPos : ℤ × ℤ := (pyFloorDiv (W - (fbox.right - fbox.left)) 2, FOOTER_Y)
  let layout : Layout :=
    { titlePos := titlePos
      logoCenter := (cx, cy)
      thankY := thank_y
      thankBottom := thank_bottom
      gridTopCenter := grid_top_center
      cellCenters := cellCenters
      footerPos := footerPos }
  let card : Card :=
    { canvasW := W
      canvasH := H
      bg := BG
      layout := layout
      gridDraws := gridDraws
      ops :=
        [.text titlePos "COFFEE SHOP" FG] ++
        [.ellipse ⟨cx - logo_outer_r, cy - logo_outer_r, cx + logo_outer_r, cy + logo_outer_r⟩
            none (some FG) 6,
          .ellipse ⟨cx - logo_inner_r, cy - logo_inner_r, cx + logo_inner_r, cy + logo_inner_r⟩
            none (some FG) 6] ++
        [.text logoTextPos "LOGO" FG] ++
        [.text (pyFloorDiv (W - thank_w) 2, thank_y) "THANK YOU FOR VISITING TODAY!" FG] ++
        gridDraws.flatten ++
        [.text footerPos "10 STAMPS = 1 FREE COFFEE" FG] }
  { format := "PNG", image := card, pos := 0 }

/-- `render_stamp_card` (lines 54-134): clamp on line 56
(`visits = max(0, min(10, int(visits)))`), then the drawing body. -/
def render_stamp_card (visits : ℤ) (env : RenderEnv) : Buffer :=
  render_clamped (max 0 (min 10 visits)) env

/-- The render boundary. The body of `render_stamp_card` (lines 54-134)
contains no `try`/`except`: its Pillow measurement and drawing calls are
unguarded, so a failure raised inside them propagates to the caller. The
outcome of the fallible measurement step is threaded as an `Except` with no
recovery, exactly as the absence of a handler dictates. -/
def render_stamp_card_boundary (visits : ℤ) (icon : Option Unit)
    (measured : Except String Metrics) : Except String Buffer :=
  measured.map fun m => render_stamp_card visits ⟨m, icon⟩

-- ---------------------- Icon compositing (lines 109-115) -----------------

/-- An RGBA pixel. -/
structure RGBA where
  r : ℕ
  g : ℕ
  b : ℕ
  a : ℕ
deriving DecidableEq, Repr

/-- One channel of Pillow `Image.paste(src, pos, mask)` with an `"L"` mask
value `m`: 255 copies the source, 0 keeps the destination, intermediate
values interpolate. -/
def pasteChannel (dest src m : ℕ) : ℕ := (src * m + dest * (255 - m)) / 255

/-- Pillow `paste` with a grayscale mask, per pixel. -/
def maskPaste (dest src : RGBA) (m : ℕ) : RGBA :=
  ⟨pasteChannel dest.r src.r m, pasteChannel dest.g src.g m,
    pasteChannel dest.b src.b m, pasteChannel dest.a src.a m⟩

/-- Lines 112-114: `white_icon` starts fully transparent and
`white_icon.paste(white_rgba, (0, 0), icon_gray)` pastes opaque white
through the icon's grayscale luminance `lum` used directly as the mask. -/
def white_icon_pixel (lum : ℕ) : RGBA :=
  maskPaste ⟨0, 0, 0, 0⟩ ⟨255, 255, 255, 255⟩ lum

/-- Line 115: `im.paste(white_icon, ..., white_icon)` composites the overlay
onto the red disc using the overlay's own alpha band as the mask. `base` is
the canvas pixel (the solid red disc) and `lum` the icon luminance there. -/
def stamp_composite (base : RGBA) (lum : ℕ) : RGBA :=
  maskPaste base (white_icon_pixel lum) (white_icon_pixel lum).a

-- ---------------------- Cell classification ------------------------------

/-- A cell drawing that contains a solid (filled) disc: produced only by
`draw_stamp`. -/
def isFilledCellDraw (l : List DrawOp) : Bool :=
  l.any fun op =>
    match op with
    | .ellipse _ (some _) _ _ => true
    | _ => false

/-- A cell drawing that is a single outline-only disc: produced only by
`draw_empty`. -/
def isEmptyCellDraw (l : List DrawOp) : Bool :=
  match l with
  | [.ellipse _ none (some _) _] => true
  | _ => false

-- ---------------------- Concrete sample inputs ---------------------------

/-- Representative DejaVu-like measured extents (subtitle height 37). -/
def sampleMetrics : Metrics :=
  { titleBox := ⟨0, 25, 806, 111⟩
    logoBox := ⟨0, 8, 102, 37⟩
    thankBox := ⟨0, 10, 643, 47⟩
    footBox := ⟨0, 8, 524, 37⟩ }

/-- Sample environment: fonts measured as `sampleMetrics`, no icon asset. -/
def sampleEnv : RenderEnv := ⟨sampleMetrics, none⟩

/-- Sample environment with the icon asset loaded. -/
def sampleEnvIcon : RenderEnv := ⟨sampleMetrics, some ()⟩

-- ===================== Helper lemmas ======================================

/-- The grid's first-row center is the bottom-guard bound 634 for every
input and every measurement: `max GRID_TOP_FIXED_MIN _ ≥ 740 > 634`. -/
theorem gridTopCenter_render (v : ℤ) (env : RenderEnv) :
    (render_stamp_card v env).image.layout.gridTopCenter = 634 := by
  have h : ∀ x : ℤ,
      min (max GRID_TOP_FIXED_MIN x) (FOOTER_Y - FOOTER_MARGIN_TOP - CIRCLE_R - ROW_GAP)
        = 634 := by
    intro x
    simp only [GRID_TOP_FIXED_MIN, FOOTER_Y, FOOTER_MARGIN_TOP, CIRCLE_R, ROW_GAP, H]
    omega
  exact h _

/-- The grid drawings of a render are the 10 cell drawings at the clamped
visit count and some first-row center. -/
theorem render_gridDraws (v : ℤ) (env : RenderEnv) :
    ∃ gtc : ℤ, (render_stamp_card v env).image.gridDraws
      = (List.range 10).map (cell_draw env.icon (max 0 (min 10 v)) gtc) :=
  ⟨_, rfl⟩

/-- A cell drawing is classified FILLED exactly when its index is below the
visit count. -/
theorem isFilledCellDraw_cell_draw (icon : Option Unit) (v gtc : ℤ) (k : ℕ) :
    isFilledCellDraw (cell_draw icon v gtc k) = decide ((k : ℤ) < v) := by
  unfold cell_draw
  split
  · cases icon <;> simp_all [draw_stamp, isFilledCellDraw]
  · simp_all [draw_empty, isFilledCellDraw]

/-- A cell drawing is classified EMPTY exactly when its index is not below
the visit count. -/
theorem isEmptyCellDraw_cell_draw (icon : Option Unit) (v gtc : ℤ) (k : ℕ) :
    isEmptyCellDraw (cell_draw icon v gtc k) = !decide ((k : ℤ) < v) := by
  unfold cell_draw
  split
  · cases icon <;> simp_all [draw_stamp, isEmptyCellDraw]
  · simp_all [draw_empty, isEmptyCellDraw]

theorem range10_count_lt (v : ℤ) (h0 : 0 ≤ v) (h1 : v ≤ 10) :
    ((List.range 10).filter fun (k : ℕ) => decide ((k : ℤ) < v)).length = v.toNat := by
  interval_cases v <;> decide

theorem range10_count_not_lt (v : ℤ) (h0 : 0 ≤ v) (h1 : v ≤ 10) :
    ((List.range 10).filter fun (k : ℕ) => !decide ((k : ℤ) < v)).length = 10 - v.toNat := by
  interval_cases v <;> decide

-- ===================== Claim theorems =====================================

/-- C1: for every `visits` in [0,10] the rendered card draws exactly
`visits` FILLED cells and `10 - visits` EMPTY cells, and the FILLED cells
are exactly those with row-major linear index `k < visits` (monotonic fill
order, no gaps). -/
theorem C1_fill_pattern (v : ℤ) (env : RenderEnv) (h0 : 0 ≤ v) (h1 : v ≤ 10) :
    (((render_stamp_card v env).image.gridDraws.filter isFilledCellDraw).length = v.toNat) ∧
    (((render_stamp_card v env).image.gridDraws.filter isEmptyCellDraw).length = 10 - v.toNat) ∧
    ((render_stamp_card v env).image.gridDraws.map isFilledCellDraw
      = (List.range 10).map fun (k : ℕ) => decide ((k : ℤ) < v)) := by
  obtain ⟨gtc, hg⟩ := render_gridDraws v env
  have hclamp : max 0 (min 10 v) = v := by omega
  rw [hclamp] at hg
  have hfun : (isFilledCellDraw ∘ cell_draw env.icon v gtc)
      = fun (k : ℕ) => decide ((k : ℤ) < v) :=
    funext fun k => isFilledCellDraw_cell_draw env.icon v gtc k
  have hfun' : (isEmptyCellDraw ∘ cell_draw env.icon v gtc)
      = fun (k : ℕ) => !decide ((k : ℤ) < v) :=
    funext fun k => isEmptyCellDraw_cell_draw env.icon v gtc k
  refine ⟨?_, ?_, ?_⟩
  · rw [hg, List.filter_map, List.length_map, hfun, range10_count_lt v h0 h1]
  · rw [hg, List.filter_map, List.length_map, hfun', range10_count_not_lt v h0 h1]
  · rw [hg, List.map_map, hfun]

/-- C1 witness at `visits = 3`. -/
theorem C1_fill_pattern_witness :
    (0 : ℤ) ≤ 3 ∧ (3 : ℤ) ≤ 10 ∧
    ((((render_stamp_card 3 sampleEnv).image.gridDraws.filter isFilledCellDraw).length
        = (3 : ℤ).toNat) ∧
     (((render_stamp_card 3 sampleEnv).image.gridDraws.filter isEmptyCellDraw).length
        = 10 - (3 : ℤ).toNat) ∧
     ((render_stamp_card 3 sampleEnv).image.gridDraws.map isFilledCellDraw
        = (List.range 10).map fun (k : ℕ) => decide ((k : ℤ) < 3))) :=
  ⟨by decide, by decide, C1_fill_pattern 3 sampleEnv (by decide) (by decide)⟩

/-- C2 counterexample: a measurement failure inside the render is not
converted into a placeholder image — the render boundary has no handler, so
the error propagates and no buffer is returned. -/
theorem C2_counterexample_error_propagates :
    ¬ ∃ b : Buffer,
      render_stamp_card_boundary 5 none (Except.error "textbbox failure")
        = Except.ok b := by
  rintro ⟨b, hb⟩
  simp [render_stamp_card_boundary, Except.map] at hb

/-- C2 (amended): for every integer input whose measurements succeed, the
render returns a well-formed 1080x1080 buffer; but an internal
measurement/drawing error propagates to the caller unchanged — there is no
error-placeholder fallback at the render boundary. -/
theorem C2_render_boundary (v : ℤ) (icon : Option Unit) (m : Metrics) (e : String) :
    render_stamp_card_boundary v icon (Except.ok m)
        = Except.ok (render_stamp_card v ⟨m, icon⟩) ∧
    (render_stamp_card v ⟨m, icon⟩).image.canvasW = 1080 ∧
    (render_stamp_card v ⟨m, icon⟩).image.canvasH = 1080 ∧
    render_stamp_card_boundary v icon (Except.error e) = Except.error e :=
  ⟨rfl, rfl, rfl, rfl⟩

/-- C3: at the sample metrics (subtitle height 37) the subtitle's bottom
edge (577) exceeds the first grid row's top edge (634 - 72 = 562) minus the
clearance constant (100): the non-overlap guard is violated — indeed the
subtitle and the grid overlap outright, because the bottom-guard clamp
(634) silently overrides the top guard. -/
theorem C3_overlap_guard_violated :
    (render_stamp_card 0 sampleEnv).image.layout.thankBottom = 577 ∧
    (render_stamp_card 0 sampleEnv).image.layout.gridTopCenter = 634 ∧
    ¬ ((render_stamp_card 0 sampleEnv).image.layout.thankBottom ≤
        (render_stamp_card 0 sampleEnv).image.layout.gridTopCenter
          - CIRCLE_R - MIN_GAP_BELOW_THANK) ∧
    (render_stamp_card 0 sampleEnv).image.layout.gridTopCenter - CIRCLE_R <
      (render_stamp_card 0 sampleEnv).image.layout.thankBottom := by
  refine ⟨rfl, rfl, by decide, by decide⟩

/-- C4: clamping law — every out-of-range input renders identically to the
nearest boundary value. -/
theorem C4_clamping_law (v : ℤ) (env : RenderEnv) :
    (v < 0 → render_stamp_card v env = render_stamp_card 0 env) ∧
    (10 < v → render_stamp_card v env = render_stamp_card 10 env) := by
  constructor
  · intro h
    unfold render_stamp_card
    congr 1
    omega
  · intro h
    unfold render_stamp_card
    congr 1
    omega

/-- C4 witness at `visits = -3` and `visits = 999`. -/
theorem C4_clamping_law_witness :
    ((-3 : ℤ) < 0 ∧ render_stamp_card (-3) sampleEnv = render_stamp_card 0 sampleEnv) ∧
    ((10 : ℤ) < 999 ∧ render_stamp_card 999 sampleEnv = render_stamp_card 10 sampleEnv) :=
  ⟨⟨by decide, (C4_clamping_law (-3) sampleEnv).1 (by decide)⟩,
   ⟨by decide, (C4_clamping_law 999 sampleEnv).2 (by decide)⟩⟩

/-- C5: two-run noninterference — every computed layout anchor (title
position, logo center, subtitle Y, grid first-row center Y, the 10 cell
centers, footer position) is identical across runs with different visit
counts; only the cell fill states depend on `visits`. -/
theorem C5_layout_noninterference (v1 v2 : ℤ) (env : RenderEnv) :
    (render_stamp_card v1 env).image.layout = (render_stamp_card v2 env).image.layout := rfl

/-- C6: the subtitle's vertical position is the maximum of the fixed target
offset and the badge's bottom edge (logo center Y + outer ring radius) plus
the 40px clearance. -/
theorem C6_thank_y_rule (v : ℤ) (env : RenderEnv) :
    (render_stamp_card v env).image.layout.thankY
      = max THANK_Y_TARGET
          ((render_stamp_card v env).image.layout.logoCenter.2 + logo_outer_r + 40) := rfl

/-- C7 counterexample: the claim's direction is inverted. A dark icon pixel
(luminance 0) yields an overlay alpha of 0 — fully transparent, leaving the
red disc unchanged — and a light pixel (luminance 255) yields alpha 255 —
fully opaque white; not the other way round. -/
theorem C7_counterexample_dark_transparent :
    ¬ ((white_icon_pixel 0).a = 255 ∧ (white_icon_pixel 255).a = 0) := by decide

/-- C7 (amended): the icon's grayscale luminance is used directly as the
overlay's alpha, so light icon pixels become opaque white pixels and dark
icon pixels become transparent (the red disc shows through). -/
theorem C7_luminance_is_alpha (base : RGBA) (lum : ℕ) (h : lum ≤ 255) :
    (white_icon_pixel lum).a = lum ∧
    stamp_composite base 0 = base ∧
    stamp_composite base 255 = ⟨255, 255, 255, 255⟩ := by
  obtain ⟨r, g, b, a⟩ := base
  refine ⟨?_, ?_, ?_⟩
  · simp [white_icon_pixel, maskPaste, pasteChannel]
  · simp [stamp_composite, white_icon_pixel, maskPaste, pasteChannel]
  · simp [stamp_composite, white_icon_pixel, maskPaste, pasteChannel]

/-- C7 witness at luminance 128 on a red-disc base pixel. -/
theorem C7_luminance_is_alpha_witness :
    (128 : ℕ) ≤ 255 ∧
    ((white_icon_pixel 128).a = 128 ∧
     stamp_composite ⟨220, 53, 69, 255⟩ 0 = ⟨220, 53, 69, 255⟩ ∧
     stamp_composite ⟨220, 53, 69, 255⟩ 255 = ⟨255, 255, 255, 255⟩) :=
  ⟨by decide, C7_luminance_is_alpha ⟨220, 53, 69, 255⟩ 128 (by decide)⟩

/-- Every operation a render issues is a text draw, an ellipse draw, or part
of one of the 10 grid cell drawings. -/
theorem render_ops_cases (v : ℤ) (env : RenderEnv) :
    ∀ op ∈ (render_stamp_card v env).image.ops,
      (∃ p s c, op = DrawOp.text p s c) ∨
      (∃ bb f o w, op = DrawOp.ellipse bb f o w) ∨
      (∃ l ∈ (render_stamp_card v env).image.gridDraws, op ∈ l) := by
  intro op hop
  simp only [render_stamp_card, render_clamped, List.mem_append, List.mem_cons,
    List.mem_singleton, List.mem_flatten, List.not_mem_nil, or_false] at hop ⊢
  rcases hop with ((((h | h | h) | h) | h) | ⟨l, hl, hll⟩) | h
  · exact Or.inl ⟨_, _, _, h⟩
  · exact Or.inr (Or.inl ⟨_, _, _, _, h⟩)
  · exact Or.inr (Or.inl ⟨_, _, _, _, h⟩)
  · exact Or.inl ⟨_, _, _, h⟩
  · exact Or.inl ⟨_, _, _, h⟩
  · exact Or.inr (Or.inr ⟨l, hl, hll⟩)
  · exact Or.inl ⟨_, _, _, h⟩

/-- Every grid cell drawing is either the solid red disc of `draw_stamp`
(with its overlay when the icon is present) or the outlined disc of
`draw_empty`. -/
theorem render_cell_shape (v : ℤ) (env : RenderEnv) :
    ∀ l ∈ (render_stamp_card v env).image.gridDraws,
      (∃ bb, l = draw_stamp env.icon (bb : ℤ × ℤ).1 bb.2) ∨
      (∃ bb, l = draw_empty (bb : ℤ × ℤ).1 bb.2) := by
  obtain ⟨gtc, hg⟩ := render_gridDraws v env
  intro l hl
  rw [hg] at hl
  obtain ⟨k, hk, rfl⟩ := List.mem_map.1 hl
  unfold cell_draw
  split
  · exact Or.inl ⟨(_, _), rfl⟩
  · exact Or.inr ⟨(_, _), rfl⟩

/-- C8: when the icon asset is missing (`_coffee_src is None`), the render
still returns its buffer, no overlay composite is issued anywhere, and
every FILLED cell is exactly one plain solid red disc. -/
theorem C8_no_icon_plain_discs (v : ℤ) (m : Metrics) :
    (∀ op ∈ (render_stamp_card v ⟨m, none⟩).image.ops, op.isPaste = false) ∧
    (∀ l ∈ (render_stamp_card v ⟨m, none⟩).image.gridDraws,
      isFilledCellDraw l = true →
        ∃ bb, l = [DrawOp.ellipse bb (some RED) (some RED) 6]) := by
  have hcell : ∀ l ∈ (render_stamp_card v ⟨m, none⟩).image.gridDraws,
      (∃ bb, l = [DrawOp.ellipse bb (some RED) (some RED) 6]) ∨
      (∃ bb, l = [DrawOp.ellipse bb none (some FG) 6]) := by
    intro l hl
    rcases render_cell_shape v ⟨m, none⟩ l hl with ⟨bb, rfl⟩ | ⟨bb, rfl⟩
    · exact Or.inl ⟨_, rfl⟩
    · exact Or.inr ⟨_, rfl⟩
  constructor
  · intro op hop
    rcases render_ops_cases v ⟨m, none⟩ op hop with ⟨p, s, c, rfl⟩ | ⟨bb, f, o, w, rfl⟩ |
      ⟨l, hl, hop'⟩
    · rfl
    · rfl
    · rcases hcell l hl with ⟨bb, rfl⟩ | ⟨bb, rfl⟩ <;>
        simp only [List.mem_singleton] at hop' <;> subst hop' <;> rfl
  · intro l hl hfill
    rcases hcell l hl with ⟨bb, rfl⟩ | ⟨bb, rfl⟩
    · exact ⟨bb, rfl⟩
    · simp [isFilledCellDraw] at hfill

/-- C8 witness: `visits = 4`, sample metrics, no icon — the top-left cell's
drawing is in the grid, is FILLED, and is a single plain solid red disc. -/
theorem C8_no_icon_plain_discs_witness :
    ([DrawOp.ellipse ⟨108, 562, 252, 706⟩ (some RED) (some RED) 6]
        ∈ (render_stamp_card 4 ⟨sampleMetrics, none⟩).image.gridDraws) ∧
    isFilledCellDraw [DrawOp.ellipse ⟨108, 562, 252, 706⟩ (some RED) (some RED) 6] = true ∧
    ∃ bb, [DrawOp.ellipse (⟨108, 562, 252, 706⟩ : BBox) (some RED) (some RED) 6]
        = [DrawOp.ellipse bb (some RED) (some RED) 6] :=
  ⟨by decide, by decide,
    (C8_no_icon_plain_discs 4 sampleMetrics).2 _ (by decide) (by decide)⟩

/-- C9: for every input and environment (asset failures included), the
returned buffer is the PNG encoding of the fixed 1080x1080 canvas and its
read position is reset to the start. -/
theorem C9_png_output (v : ℤ) (env : RenderEnv) :
    (render_stamp_card v env).format = "PNG" ∧
    (render_stamp_card v env).image.canvasW = 1080 ∧
    (render_stamp_card v env).image.canvasH = 1080 ∧
    (render_stamp_card v env).pos = 0 :=
  ⟨rfl, rfl, rfl, rfl⟩

/-- C10: the grid's first-row center Y is always the bottom-guard constant
`FOOTER_Y - FOOTER_MARGIN_TOP - CIRCLE_R - ROW_GAP = 634`, which lies
strictly below `GRID_TOP_FIXED_MIN = 740`, so the `min` clamp overrides
both the fixed minimum and the measured-text candidate for every input and
every font metric. -/
theorem C10_grid_top_constant (v : ℤ) (env : RenderEnv) :
    (render_stamp_card v env).image.layout.gridTopCenter
        = FOOTER_Y - FOOTER_MARGIN_TOP - CIRCLE_R - ROW_GAP ∧
    FOOTER_Y - FOOTER_MARGIN_TOP - CIRCLE_R - ROW_GAP = 634 ∧
    FOOTER_Y - FOOTER_MARGIN_TOP - CIRCLE_R - ROW_GAP < GRID_TOP_FIXED_MIN ∧
    GRID_TOP_FIXED_MIN = 740 :=
  ⟨(gridTopCenter_render v env).trans (by decide), by decide, by decide, rfl⟩
